import Mathlib

/-!
# ESP32 DHT22 Home Assistant node: interval reconciliation

A shallow embedding of `src/main.cpp`.  The globals of the sketch become the
fields of `State`; every function that touches them becomes a pure function
returning the new state together with the list of `client.publish` calls it
issued, in order.  `Serial` logging has no effect on the globals or on the
broker and is left out.  `unsigned long` and `int` are 32 bits wide on the
ESP32; unsigned values are natural numbers reduced modulo `2 ^ 32` where a
conversion happens.
-/

namespace Firmware

/-! ## Library behaviour the sketch relies on -/

/-- White space as skipped by the C library before a number: space and the
control characters 9 to 13. -/
def isspace (c : Char) : Bool :=
  c.toNat = 32 || (9 ≤ c.toNat && c.toNat ≤ 13)

/-- Decimal digits read left to right until the first character that is not a
digit; `acc` is the value read so far. -/
def readDigits (acc : Nat) : List Char → Nat
  | [] => acc
  | c :: cs =>
    if 48 ≤ c.toNat ∧ c.toNat ≤ 57 then readDigits (acc * 10 + (c.toNat - 48)) cs
    else acc

/-- Largest value of a 32-bit `long`. -/
def LONG_MAX : Int := 2147483647

/-- Smallest value of a 32-bit `long`. -/
def LONG_MIN : Int := -2147483648

/-- The C library `atol` (base-10 `strtol`) on a 32-bit `long`: leading white
space is skipped, one optional sign is read, then the longest run of digits;
no digits give 0 and a value out of range saturates. -/
def atol (cs : List Char) : Int :=
  match cs.dropWhile isspace with
  | [] => 0
  | c :: rest =>
    if c = '-' then max LONG_MIN (-(readDigits 0 rest : Int))
    else if c = '+' then min LONG_MAX (readDigits 0 rest : Int)
    else min LONG_MAX (readDigits 0 (c :: rest) : Int)

/-- Arduino `String::toInt`, which is `atol` on the character buffer. -/
def toInt (message : String) : Int := atol message.data

/-- Conversion of a `long` to the 32-bit `unsigned long` it is stored in. -/
def toULong (z : Int) : Nat := (z % 4294967296).toNat

/-- Arduino `String(unsigned long)`: the decimal text of the value. -/
def ofULong (n : Nat) : String := Nat.repr n

/-- A decimal digit character. -/
def IsDigitChar (c : Char) : Prop := 48 ≤ c.toNat ∧ c.toNat ≤ 57

/-- Value of a digit string read left to right from `acc`. -/
def digitsValue (acc : Nat) (l : List Char) : Nat :=
  l.foldl (fun a c => a * 10 + (c.toNat - 48)) acc

/-! ## Data model -/

/-- A value inside a discovery document. -/
inductive JsonValue where
  | str (s : String)
  | num (n : Int)
  | obj (members : List (String × String))
  deriving DecidableEq, Repr

/-- A `JsonDocument`: its members in insertion order. -/
abbrev JsonDocument := List (String × JsonValue)

/-- What is handed to `client.publish` as payload: a plain text, or the
`serializeJson` image of a document. -/
inductive Payload where
  | text (s : String)
  | json (doc : JsonDocument)
  deriving DecidableEq, Repr

/-- One call `client.publish(topic, payload, retained)`. -/
structure Publish where
  topic : String
  payload : Payload
  retained : Bool
  deriving DecidableEq, Repr

/-- The globals of the sketch, the function-static `lastReconnectAttempt` of
`reconnectMQTT`, and the NVS record `settings/telemetryInterval`
(`none` when the key was never written). -/
structure State where
  lastTelemetryTime : Nat
  lastPublishedInterval : Nat
  telemetryInterval : Nat
  retainedStateProcessed : Bool
  device_id : String
  temperature_config_topic : String
  humidity_config_topic : String
  telemetry_topic : String
  command_topic : String
  interval_state_topic : String
  lastReconnectAttempt : Nat
  nvs : Option Nat
  deriving DecidableEq, Repr

/-- The globals as initialised at lines 28-57, with an NVS partition `nvs`. -/
def initialState (nvs : Option Nat) : State :=
  { lastTelemetryTime := 0
    lastPublishedInterval := 0
    telemetryInterval := 60000
    retainedStateProcessed := false
    device_id := ""
    temperature_config_topic := ""
    humidity_config_topic := ""
    telemetry_topic := ""
    command_topic := ""
    interval_state_topic := ""
    lastReconnectAttempt := 0
    nvs := nvs }

/-- The firmware version string. -/
def version : String := "1.0.10"

/-- The model string. -/
def model : String := "ESP32_DHT22"

/-- The manufacturer string. -/
def manufacturer : String := "Edge"

/-! ## Persistent store -/

/-- `saveTelemetryIntervalToNVS`: `putUInt` stores the value as 32 bits. -/
def saveTelemetryIntervalToNVS (s : State) (interval : Nat) : State :=
  { s with nvs := some (interval % 4294967296) }

/-- `loadTelemetryIntervalFromNVS`: `getUInt` with default 60000. -/
def loadTelemetryIntervalFromNVS (s : State) : Nat :=
  match s.nvs with
  | some v => v
  | none => 60000

/-- `updateTelemetryInterval` (lines 116-133). -/
def updateTelemetryInterval (s : State) (newInterval : Nat) : State × List Publish :=
  if 1000 ≤ newInterval ∧ newInterval ≤ 600000 then
    if s.telemetryInterval ≠ newInterval then
      let s1 := saveTelemetryIntervalToNVS { s with telemetryInterval := newInterval } newInterval
      if s1.telemetryInterval ≠ s1.lastPublishedInterval then
        ({ s1 with lastPublishedInterval := s1.telemetryInterval },
          [⟨s1.interval_state_topic, Payload.text (ofULong s1.telemetryInterval), true⟩])
      else (s1, [])
    else (s, [])
  else (s, [])

/-! ## Inbound message dispatch -/

/-- `mqttCallback` (lines 135-186): `topic` and `payload` are the inbound
message. -/
def mqttCallback (s : State) (topic payload : String) : State × List Publish :=
  if topic = s.interval_state_topic then
    let retainedInterval := toULong (toInt payload)
    if 1000 ≤ retainedInterval ∧ retainedInterval ≤ 600000 then
      ({ s with
          telemetryInterval := retainedInterval
          lastPublishedInterval := retainedInterval
          retainedStateProcessed := true }, [])
    else (s, [])
  else if topic = s.command_topic then
    let newInterval := toULong (toInt payload)
    if 1000 ≤ newInterval ∧ newInterval ≤ 600000 then
      let s1 := { s with telemetryInterval := newInterval }
      if s1.telemetryInterval ≠ s1.lastPublishedInterval then
        ({ s1 with lastPublishedInterval := s1.telemetryInterval },
          [⟨s1.interval_state_topic, Payload.text (ofULong s1.telemetryInterval), true⟩])
      else (s1, [])
    else (s, [])
  else (s, [])

/-! ## Discovery and the post-connect fallback -/

/-- The availability topic, built in place wherever it is used. -/
def availabilityTopic (s : State) : String :=
  "homeassistant/sensor/" ++ s.device_id ++ "/availability"

/-- The topic of the telemetry-interval control descriptor (line 296). -/
def intervalConfigTopic (s : State) : String :=
  "homeassistant/number/" ++ s.device_id ++ "/telemetry_interval/config"

/-- The `dev` block shared by the three documents. -/
def deviceBlock (s : State) : JsonValue :=
  JsonValue.obj
    [("ids", s.device_id), ("name", s.device_id), ("sw", version), ("mdl", model),
      ("mf", manufacturer)]

/-- The temperature descriptor (lines 226-243). -/
def tempDoc (s : State) : JsonDocument :=
  [("name", JsonValue.str "Temperature"),
    ("uniq_id", JsonValue.str (s.device_id ++ "_temperature")),
    ("stat_t", JsonValue.str s.telemetry_topic),
    ("val_tpl", JsonValue.str "\x7b\x7b value_json.temperature \x7d\x7d"),
    ("unit_of_meas", JsonValue.str "°C"),
    ("dev_cla", JsonValue.str "temperature"),
    ("stat_cla", JsonValue.str "measurement"),
    ("avty_t", JsonValue.str (availabilityTopic s)),
    ("json_attr_t", JsonValue.str s.telemetry_topic),
    ("json_attr_tpl", JsonValue.str "\x7b\x7b value_json | tojson \x7d\x7d"),
    ("dev", deviceBlock s)]

/-- The humidity descriptor (lines 250-267). -/
def humDoc (s : State) : JsonDocument :=
  [("name", JsonValue.str "Humidity"),
    ("uniq_id", JsonValue.str (s.device_id ++ "_humidity")),
    ("stat_t", JsonValue.str s.telemetry_topic),
    ("val_tpl", JsonValue.str "\x7b\x7b value_json.humidity \x7d\x7d"),
    ("unit_of_meas", JsonValue.str "%"),
    ("dev_cla", JsonValue.str "humidity"),
    ("stat_cla", JsonValue.str "measurement"),
    ("avty_t", JsonValue.str (availabilityTopic s)),
    ("json_attr_t", JsonValue.str s.telemetry_topic),
    ("json_attr_tpl", JsonValue.str "\x7b\x7b value_json | tojson \x7d\x7d"),
    ("dev", deviceBlock s)]

/-- The telemetry-interval control descriptor (lines 274-292). -/
def intervalDoc (s : State) : JsonDocument :=
  [("name", JsonValue.str "Telemetry Interval"),
    ("uniq_id", JsonValue.str (s.device_id ++ "_telemetry_interval")),
    ("cmd_t", JsonValue.str s.command_topic),
    ("stat_t", JsonValue.str s.interval_state_topic),
    ("val_tpl", JsonValue.str "\x7b\x7b value \x7d\x7d"),
    ("min", JsonValue.num 1000),
    ("max", JsonValue.num 600000),
    ("step", JsonValue.num 1000),
    ("unit_of_meas", JsonValue.str "ms"),
    ("json_attr_t", JsonValue.str s.telemetry_topic),
    ("json_attr_tpl", JsonValue.str "\x7b\x7b value_json | tojson \x7d\x7d"),
    ("dev", deviceBlock s)]

/-- The four unconditional publishes of `setupAutoDiscovery` (lines 247, 271,
296 and 299), in order. -/
def discoveryPublishes (s : State) : List Publish :=
  [⟨s.temperature_config_topic, Payload.json (tempDoc s), true⟩,
    ⟨s.humidity_config_topic, Payload.json (humDoc s), true⟩,
    ⟨intervalConfigTopic s, Payload.json (intervalDoc s), true⟩,
    ⟨availabilityTopic s, Payload.text "online", true⟩]

/-- The post-connect fallback check that ends `setupAutoDiscovery`
(lines 301-306). -/
def publishInitialIntervalState (s : State) : State × List Publish :=
  if s.retainedStateProcessed = false ∧ s.telemetryInterval ≠ s.lastPublishedInterval then
    ({ s with lastPublishedInterval := s.telemetryInterval },
      [⟨s.interval_state_topic, Payload.text (ofULong s.telemetryInterval), true⟩])
  else (s, [])

/-- `setupAutoDiscovery` (lines 224-317). -/
def setupAutoDiscovery (s : State) : State × List Publish :=
  let r := publishInitialIntervalState s
  (r.1, discoveryPublishes s ++ r.2)

/-! ## Session maintenance -/

/-- Difference of two `unsigned long` values. -/
def subULong (a b : Nat) : Nat :=
  (a % 4294967296 + 4294967296 - b % 4294967296) % 4294967296

/-- `reconnectMQTT` (lines 188-221).  `clientConnected` is what
`client.connected()` answers, `now` is `millis()`, and `connectOk` is what
`client.connect` answers if it is called.  The two `client.subscribe` calls
publish nothing and touch no global. -/
def reconnectMQTT (s : State) (clientConnected : Bool) (now : Nat) (connectOk : Bool) :
    State × List Publish :=
  if clientConnected = false ∧ subULong now s.lastReconnectAttempt > 5000 then
    let s1 := { s with lastReconnectAttempt := now % 4294967296 }
    if connectOk then
      let s2 := { s1 with retainedStateProcessed := false }
      let r := setupAutoDiscovery s2
      (r.1, ⟨availabilityTopic s1, Payload.text "online", true⟩ :: r.2)
    else (s1, [])
  else (s, [])

/-! ## Start-up -/

/-- Lines 418-419: the device identifier is `esp32_` followed by the MAC
address with every colon removed. -/
def setupDeviceId (s : State) (mac : String) : State :=
  { s with device_id := String.mk (("esp32_" ++ mac).data.filter (fun c => c ≠ ':')) }

/-- Lines 422-423: the interval is loaded from NVS and the last published
value is set to it. -/
def setupLoadInterval (s : State) : State :=
  let s1 := { s with telemetryInterval := loadTelemetryIntervalFromNVS s }
  { s1 with lastPublishedInterval := s1.telemetryInterval }

/-- Lines 427-431: the five topic globals. -/
def setupTopics (s : State) : State :=
  { s with
    temperature_config_topic := "homeassistant/sensor/" ++ s.device_id ++ "/temperature/config"
    humidity_config_topic := "homeassistant/sensor/" ++ s.device_id ++ "/humidity/config"
    telemetry_topic := "homeassistant/sensor/" ++ s.device_id ++ "/telemetry"
    command_topic := "homeassistant/sensor/" ++ s.device_id ++ "/command"
    interval_state_topic := "homeassistant/sensor/" ++ s.device_id ++ "/interval/state" }

/-- `setup` (lines 409-447) as far as the globals and the broker are
concerned.  `mac` is `WiFi.macAddress()`; `now` and `connectOk` are the inputs
of the one `reconnectMQTT` call, made on a client that was never connected. -/
def setup (s : State) (mac : String) (now : Nat) (connectOk : Bool) : State × List Publish :=
  let s1 := setupTopics (setupLoadInterval (setupDeviceId s mac))
  let r1 := reconnectMQTT s1 false now connectOk
  let r2 := setupAutoDiscovery r1.1
  (r2.1, r1.2 ++ r2.2)

/-- The topic globals hold what `setup` assigned to them. -/
def TopicsAssigned (s : State) : Prop :=
  s.temperature_config_topic = "homeassistant/sensor/" ++ s.device_id ++ "/temperature/config" ∧
  s.humidity_config_topic = "homeassistant/sensor/" ++ s.device_id ++ "/humidity/config" ∧
  s.telemetry_topic = "homeassistant/sensor/" ++ s.device_id ++ "/telemetry" ∧
  s.command_topic = "homeassistant/sensor/" ++ s.device_id ++ "/command" ∧
  s.interval_state_topic = "homeassistant/sensor/" ++ s.device_id ++ "/interval/state"

instance (s : State) : Decidable (TopicsAssigned s) := by
  unfold TopicsAssigned; infer_instance

/-! ## Event sequences -/

/-- What can happen to the reconciler after the NVS load: an inbound message,
a `reconnectMQTT` call, or a `setupAutoDiscovery` call. -/
inductive Event where
  | message (topic payload : String)
  | reconnect (clientConnected : Bool) (now : Nat) (connectOk : Bool)
  | discovery
  deriving DecidableEq, Repr

/-- One event. -/
def step (s : State) : Event → State × List Publish
  | Event.message topic payload => mqttCallback s topic payload
  | Event.reconnect c now ok => reconnectMQTT s c now ok
  | Event.discovery => setupAutoDiscovery s

/-- A sequence of events, with the publishes in order. -/
def run (s : State) : List Event → State × List Publish
  | [] => (s, [])
  | e :: es =>
    let r := step s e
    let r2 := run r.1 es
    (r2.1, r.2 ++ r2.2)

/-! ## Signal quality -/

/-- `calculateWiFiQuality` (lines 328-339); the division of `int` truncates. -/
def calculateWiFiQuality (rssi : Int) : Int :=
  let rssiMin : Int := -100
  let rssiMax : Int := -50
  if rssi ≤ rssiMin then 0
  else if rssi ≥ rssiMax then 100
  else Int.tdiv ((rssi - rssiMin) * 100) (rssiMax - rssiMin)

/-- A device after `setup` with MAC address `AA:BB:CC:DD:EE:FF`, used for
concrete runs: interval `t`, last published `p`, flag `f`, NVS `nvs`. -/
def sampleState (t p : Nat) (f : Bool) (nvs : Option Nat) : State :=
  { setupTopics (setupDeviceId (initialState nvs) "AA:BB:CC:DD:EE:FF") with
    telemetryInterval := t
    lastPublishedInterval := p
    retainedStateProcessed := f }

/-! ## Decimal text and `toInt` -/

theorem digitChar_toNat (k : Nat) (hk : k < 10) : (Nat.digitChar k).toNat = 48 + k := by
  interval_cases k <;> rfl

theorem digitChar_isDigit (k : Nat) (hk : k < 10) : IsDigitChar (Nat.digitChar k) := by
  unfold IsDigitChar
  rw [digitChar_toNat k hk]; omega

theorem toDigitsCore_append (fuel : Nat) :
    ∀ (n : Nat) (ds : List Char),
      Nat.toDigitsCore 10 fuel n ds = Nat.toDigitsCore 10 fuel n [] ++ ds := by
  induction fuel with
  | zero => intro n ds; simp [Nat.toDigitsCore]
  | succ f ih =>
    intro n ds
    simp only [Nat.toDigitsCore]
    by_cases h : n / 10 = 0
    · simp [h]
    · simp only [h, if_false]
      rw [ih (n / 10) (Nat.digitChar (n % 10) :: ds), ih (n / 10) [Nat.digitChar (n % 10)]]
      simp

theorem toDigitsCore_spec (fuel : Nat) :
    ∀ n : Nat, n < fuel →
      Nat.toDigitsCore 10 fuel n [] ≠ [] ∧
      (∀ c ∈ Nat.toDigitsCore 10 fuel n [], IsDigitChar c) ∧
      digitsValue 0 (Nat.toDigitsCore 10 fuel n []) = n := by
  induction fuel with
  | zero => intro n hn; omega
  | succ f ih =>
    intro n hn
    have hmod : n % 10 < 10 := Nat.mod_lt _ (by decide)
    simp only [Nat.toDigitsCore]
    by_cases h : n / 10 = 0
    · have hlt : n < 10 := by omega
      simp only [h, if_true]
      refine ⟨by simp, ?_, ?_⟩
      · intro c hc
        simp only [List.mem_singleton] at hc
        subst hc; exact digitChar_isDigit _ hmod
      · simp only [digitsValue, List.foldl]
        rw [digitChar_toNat _ hmod]; omega
    · simp only [h, if_false]
      rw [toDigitsCore_append]
      have hlt : n / 10 < f := by omega
      obtain ⟨_, h2, h3⟩ := ih (n / 10) hlt
      refine ⟨by simp, ?_, ?_⟩
      · intro c hc
        rcases List.mem_append.mp hc with hc | hc
        · exact h2 c hc
        · simp only [List.mem_singleton] at hc
          subst hc; exact digitChar_isDigit _ hmod
      · unfold digitsValue at h3 ⊢
        rw [List.foldl_append, h3]
        simp only [List.foldl]
        rw [digitChar_toNat _ hmod]; omega

theorem readDigits_append (l : List Char) :
    ∀ (acc : Nat) (rest : List Char), (∀ c ∈ l, IsDigitChar c) →
      readDigits acc (l ++ rest) = readDigits (digitsValue acc l) rest := by
  induction l with
  | nil => intro acc rest _; simp [digitsValue]
  | cons c cs ih =>
    intro acc rest h
    have hc : 48 ≤ c.toNat ∧ c.toNat ≤ 57 := h c (List.mem_cons_self _ _)
    have hstep : readDigits acc (c :: (cs ++ rest)) =
        readDigits (acc * 10 + (c.toNat - 48)) (cs ++ rest) := by
      rw [readDigits, if_pos hc]
    rw [List.cons_append, hstep, ih _ _ (fun d hd => h d (List.mem_cons_of_mem _ hd))]
    simp [digitsValue]

theorem toInt_ofULong (n : Nat) (hn : n ≤ 2147483647) : toInt (ofULong n) = n := by
  unfold toInt ofULong
  have hdata : (Nat.repr n).data = Nat.toDigitsCore 10 (n + 1) n [] := rfl
  rw [hdata]
  obtain ⟨h1, h2, h3⟩ := toDigitsCore_spec (n + 1) n (Nat.lt_succ_self n)
  have hrd : readDigits 0 (Nat.toDigitsCore 10 (n + 1) n []) = n := by
    have := readDigits_append _ 0 [] h2
    simpa [h3, readDigits] using this
  generalize hl : Nat.toDigitsCore 10 (n + 1) n [] = l at h1 h2 hrd
  cases l with
  | nil => exact absurd rfl h1
  | cons c cs =>
    have hc : 48 ≤ c.toNat ∧ c.toNat ≤ 57 := h2 c (List.mem_cons_self _ _)
    have hsp : isspace c = false := by
      unfold isspace
      simp only [Bool.or_eq_false_iff, decide_eq_false_iff_not, Bool.and_eq_false_iff]
      omega
    have hminus : c ≠ '-' := by
      intro h; subst h; revert hc; decide
    have hplus : c ≠ '+' := by
      intro h; subst h; revert hc; decide
    unfold atol
    simp only [List.dropWhile, hsp, hminus, hplus, if_false, hrd]
    unfold LONG_MAX
    omega

theorem toULong_natCast (n : Nat) (hn : n < 4294967296) : toULong (n : Int) = n := by
  unfold toULong
  omega

theorem readDigits_of_no_digit (acc : Nat) (l : List Char) (h : ∀ c ∈ l, ¬ IsDigitChar c) :
    readDigits acc l = acc := by
  cases l with
  | nil => rfl
  | cons c cs =>
    have hc : ¬ (48 ≤ c.toNat ∧ c.toNat ≤ 57) := h c (List.mem_cons_self _ _)
    rw [readDigits, if_neg hc]

theorem atol_bounds (cs : List Char) : LONG_MIN ≤ atol cs ∧ atol cs ≤ LONG_MAX := by
  unfold atol LONG_MIN LONG_MAX
  split
  · omega
  · split_ifs <;> omega

theorem toULong_of_neg (z : Int) (hlo : LONG_MIN ≤ z) (hneg : z < 0) : 600000 < toULong z := by
  unfold toULong
  unfold LONG_MIN at hlo
  omega

theorem toInt_of_no_digit (payload : String) (h : ∀ c ∈ payload.data, ¬ IsDigitChar c) :
    toInt payload = 0 := by
  unfold toInt atol
  have hsub : ∀ c ∈ payload.data.dropWhile isspace, ¬ IsDigitChar c := fun c hc =>
    h c ((List.dropWhile_sublist _).subset hc)
  split
  · rfl
  · rename_i c rest heq
    rw [heq] at hsub
    have hrest : ∀ d ∈ rest, ¬ IsDigitChar d := fun d hd => hsub d (List.mem_cons_of_mem _ hd)
    rw [readDigits_of_no_digit 0 rest hrest, readDigits_of_no_digit 0 (c :: rest) hsub]
    unfold LONG_MIN LONG_MAX
    split_ifs <;> simp

/-! ## Topics -/

theorem topic_ne (p q d a b : String) (h : p.length + a.length ≠ q.length + b.length) :
    p ++ d ++ a ≠ q ++ d ++ b := by
  intro e
  have hl := congrArg String.length e
  simp only [String.length_append] at hl
  omega

theorem command_ne_interval_state (s : State) (hT : TopicsAssigned s) :
    s.command_topic ≠ s.interval_state_topic := by
  obtain ⟨_, _, _, h4, h5⟩ := hT
  rw [h4, h5]
  exact topic_ne _ _ _ _ _ (by decide)

theorem interval_state_not_discovery (s : State) (hT : TopicsAssigned s) :
    ∀ p ∈ discoveryPublishes s, p.topic ≠ s.interval_state_topic := by
  obtain ⟨h1, h2, _, _, h5⟩ := hT
  intro p hp
  simp only [discoveryPublishes, List.mem_cons, List.mem_singleton, List.not_mem_nil,
    or_false] at hp
  rcases hp with rfl | rfl | rfl | rfl
  · show s.temperature_config_topic ≠ s.interval_state_topic
    rw [h1, h5]; exact topic_ne _ _ _ _ _ (by decide)
  · show s.humidity_config_topic ≠ s.interval_state_topic
    rw [h2, h5]; exact topic_ne _ _ _ _ _ (by decide)
  · show intervalConfigTopic s ≠ s.interval_state_topic
    rw [h5]; exact topic_ne _ _ _ _ _ (by decide)
  · show availabilityTopic s ≠ s.interval_state_topic
    rw [h5]; exact topic_ne _ _ _ _ _ (by decide)

/-- Under the topics of `setup`, the three discovery topics, the availability
topic and the interval-state topic are five different strings. -/
theorem discovery_topics_distinct (s : State) (hT : TopicsAssigned s) :
    s.temperature_config_topic ≠ s.humidity_config_topic ∧
      s.temperature_config_topic ≠ intervalConfigTopic s ∧
      s.temperature_config_topic ≠ availabilityTopic s ∧
      s.temperature_config_topic ≠ s.interval_state_topic ∧
      s.humidity_config_topic ≠ intervalConfigTopic s ∧
      s.humidity_config_topic ≠ availabilityTopic s ∧
      s.humidity_config_topic ≠ s.interval_state_topic ∧
      intervalConfigTopic s ≠ availabilityTopic s ∧
      intervalConfigTopic s ≠ s.interval_state_topic := by
  obtain ⟨h1, h2, _, _, h5⟩ := hT
  rw [h1, h2, h5]
  unfold intervalConfigTopic availabilityTopic
  refine ⟨?_, ?_, ?_, ?_, ?_, ?_, ?_, ?_, ?_⟩ <;> exact topic_ne _ _ _ _ _ (by decide)

theorem setupTopics_assigned (s : State) : TopicsAssigned (setupTopics s) :=
  ⟨rfl, rfl, rfl, rfl, rfl⟩

theorem mqttCallback_topics (s : State) (topic payload : String) (hT : TopicsAssigned s) :
    TopicsAssigned (mqttCallback s topic payload).1 := by
  unfold mqttCallback
  simp only []
  split_ifs <;> exact hT

theorem setupAutoDiscovery_topics (s : State) (hT : TopicsAssigned s) :
    TopicsAssigned (setupAutoDiscovery s).1 := by
  unfold setupAutoDiscovery publishInitialIntervalState
  simp only []
  split_ifs <;> exact hT

theorem reconnectMQTT_topics (s : State) (c : Bool) (now : Nat) (ok : Bool)
    (hT : TopicsAssigned s) : TopicsAssigned (reconnectMQTT s c now ok).1 := by
  unfold reconnectMQTT
  simp only []
  split_ifs
  · exact setupAutoDiscovery_topics _ hT
  · exact hT
  · exact hT

/-- The topics assigned by `setup` stay assigned along every run. -/
theorem run_topics (evs : List Event) :
    ∀ s : State, TopicsAssigned s → TopicsAssigned (run s evs).1 := by
  induction evs with
  | nil => intro s h; exact h
  | cons e es ih =>
    intro s h
    refine ih (step s e).1 ?_
    cases e with
    | message topic payload => exact mqttCallback_topics s topic payload h
    | reconnect c now ok => exact reconnectMQTT_topics s c now ok h
    | discovery => exact setupAutoDiscovery_topics s h

/-! ## Commands -/

/-- C1: for valid intervals `v1 ≠ v2`, a command carrying the decimal text of
`v2`, handled while the authoritative and the last published interval are
both `v1`, issues exactly one publish, on the interval-state topic, with
payload `v2` and the retain flag, and leaves both intervals at `v2`. -/
theorem command_update_publishes_once (s : State) (v1 v2 : Nat) (hT : TopicsAssigned s)
    (_h1 : 1000 ≤ v1 ∧ v1 ≤ 600000) (h2 : 1000 ≤ v2 ∧ v2 ≤ 600000) (hne : v1 ≠ v2)
    (_ht : s.telemetryInterval = v1) (hp : s.lastPublishedInterval = v1) :
    (mqttCallback s s.command_topic (Nat.repr v2)).2 =
        [⟨s.interval_state_topic, Payload.text (Nat.repr v2), true⟩] ∧
      (mqttCallback s s.command_topic (Nat.repr v2)).1.telemetryInterval = v2 ∧
      (mqttCallback s s.command_topic (Nat.repr v2)).1.lastPublishedInterval = v2 := by
  have hparse : toULong (toInt (Nat.repr v2)) = v2 := by
    have h := toInt_ofULong v2 (by omega)
    unfold ofULong at h
    rw [h]
    exact toULong_natCast v2 (by omega)
  have hv : v2 ≠ s.lastPublishedInterval := by rw [hp]; exact fun h => hne h.symm
  have hr : 1000 ≤ v2 ∧ v2 ≤ 600000 := h2
  simp only [mqttCallback, command_ne_interval_state s hT, if_false, if_true, hparse, hr,
    and_self, ne_eq, hv, not_false_eq_true, ofULong]

/-- C1 at both ends of the range: 60000 to 1000 and 60000 to 600000. -/
theorem command_update_publishes_once_witness :
    ((mqttCallback (sampleState 60000 60000 true none)
          (sampleState 60000 60000 true none).command_topic (Nat.repr 1000)).2 =
        [⟨(sampleState 60000 60000 true none).interval_state_topic,
          Payload.text (Nat.repr 1000), true⟩] ∧
      (mqttCallback (sampleState 60000 60000 true none)
          (sampleState 60000 60000 true none).command_topic
          (Nat.repr 1000)).1.telemetryInterval = 1000 ∧
      (mqttCallback (sampleState 60000 60000 true none)
          (sampleState 60000 60000 true none).command_topic
          (Nat.repr 1000)).1.lastPublishedInterval = 1000) ∧
    (mqttCallback (sampleState 60000 60000 true none)
          (sampleState 60000 60000 true none).command_topic (Nat.repr 600000)).2 =
        [⟨(sampleState 60000 60000 true none).interval_state_topic,
          Payload.text (Nat.repr 600000), true⟩] :=
  ⟨command_update_publishes_once (sampleState 60000 60000 true none) 60000 1000 (by decide)
      (by decide) (by decide) (by decide) rfl rfl,
    (command_update_publishes_once (sampleState 60000 60000 true none) 60000 600000 (by decide)
      (by decide) (by decide) (by decide) rfl rfl).1⟩

/-- C2 (the code at the failing input): a command of 2000 handled while the
authoritative interval and the persisted value are 60000 changes the
authoritative interval to 2000 but leaves the persisted store at 60000, so the
next load returns 60000; `updateTelemetryInterval` on the same state does
write 2000. -/
theorem command_not_persisted :
    (mqttCallback (sampleState 60000 60000 true (some 60000))
        (sampleState 60000 60000 true (some 60000)).command_topic "2000").1.telemetryInterval
        = 2000 ∧
      (mqttCallback (sampleState 60000 60000 true (some 60000))
        (sampleState 60000 60000 true (some 60000)).command_topic "2000").1.nvs = some 60000 ∧
      loadTelemetryIntervalFromNVS
        (mqttCallback (sampleState 60000 60000 true (some 60000))
          (sampleState 60000 60000 true (some 60000)).command_topic "2000").1 = 60000 ∧
      loadTelemetryIntervalFromNVS
        (updateTelemetryInterval (sampleState 60000 60000 true (some 60000)) 2000).1 = 2000 := by
  decide

/-- C3: a command whose parsed value is below 1000 or above 600000 changes
nothing (intervals, flag and persisted store included) and publishes nothing;
this covers the texts 999, 600001 and 0, every text that parses to a negative
number, and every text without a digit. -/
theorem command_out_of_range_rejected (s : State) (hT : TopicsAssigned s) :
    (∀ payload : String,
        (toULong (toInt payload) < 1000 ∨ 600000 < toULong (toInt payload)) →
        mqttCallback s s.command_topic payload = (s, [])) ∧
      mqttCallback s s.command_topic "999" = (s, []) ∧
      mqttCallback s s.command_topic "600001" = (s, []) ∧
      mqttCallback s s.command_topic "0" = (s, []) ∧
      (∀ payload : String, toInt payload < 0 →
        mqttCallback s s.command_topic payload = (s, [])) ∧
      (∀ payload : String, (∀ c ∈ payload.data, ¬ IsDigitChar c) →
        mqttCallback s s.command_topic payload = (s, [])) := by
  have key : ∀ payload : String,
      (toULong (toInt payload) < 1000 ∨ 600000 < toULong (toInt payload)) →
      mqttCallback s s.command_topic payload = (s, []) := by
    intro payload h
    have hr : ¬ (1000 ≤ toULong (toInt payload) ∧ toULong (toInt payload) ≤ 600000) := by omega
    simp only [mqttCallback, command_ne_interval_state s hT, if_false, if_true, hr]
  refine ⟨key, key _ (by decide), key _ (by decide), key _ (by decide), ?_, ?_⟩
  · intro payload hneg
    exact key payload (Or.inr (toULong_of_neg _ (atol_bounds _).1 hneg))
  · intro payload hnd
    refine key payload (Or.inl ?_)
    rw [toInt_of_no_digit payload hnd]
    decide

/-- C3 on a device whose interval is 60000: the command 999 is dropped. -/
theorem command_out_of_range_rejected_witness :
    mqttCallback (sampleState 60000 60000 true (some 60000))
        (sampleState 60000 60000 true (some 60000)).command_topic "999" =
      (sampleState 60000 60000 true (some 60000), []) :=
  (command_out_of_range_rejected (sampleState 60000 60000 true (some 60000)) (by decide)).2.1

/-! ## Retained state -/

/-- C4: an interval-state message with an in-range value `R`, followed by the
post-connect fallback check, publishes nothing in either step and ends with
both intervals at `R` and the flag set, whatever the persisted value; the
whole of `setupAutoDiscovery` ends in the same state and, under the topics of
`setup`, none of its publishes is on the interval-state topic. -/
theorem retained_then_fallback_keeps_retained (s : State) (payload : String) (R : Nat)
    (hR : 1000 ≤ R ∧ R ≤ 600000) (hv : toULong (toInt payload) = R) :
    (mqttCallback s s.interval_state_topic payload).2 = [] ∧
      (publishInitialIntervalState (mqttCallback s s.interval_state_topic payload).1).2 = [] ∧
      (publishInitialIntervalState
        (mqttCallback s s.interval_state_topic payload).1).1.telemetryInterval = R ∧
      (publishInitialIntervalState
        (mqttCallback s s.interval_state_topic payload).1).1.lastPublishedInterval = R ∧
      (publishInitialIntervalState
        (mqttCallback s s.interval_state_topic payload).1).1.retainedStateProcessed = true ∧
      (setupAutoDiscovery (mqttCallback s s.interval_state_topic payload).1).1 =
        (publishInitialIntervalState (mqttCallback s s.interval_state_topic payload).1).1 ∧
      (TopicsAssigned s →
        ∀ p ∈ (setupAutoDiscovery (mqttCallback s s.interval_state_topic payload).1).2,
          p.topic ≠ s.interval_state_topic) := by
  have hcb : mqttCallback s s.interval_state_topic payload =
      ({ s with
          telemetryInterval := R
          lastPublishedInterval := R
          retainedStateProcessed := true }, []) := by
    simp only [mqttCallback, if_true, hv, hR, and_self]
  rw [hcb]
  refine ⟨rfl, ?_, ?_, ?_, ?_, ?_, ?_⟩
  · simp [publishInitialIntervalState]
  · simp [publishInitialIntervalState]
  · simp [publishInitialIntervalState]
  · simp [publishInitialIntervalState]
  · simp [setupAutoDiscovery]
  · intro hT p hp
    have hT2 : TopicsAssigned { s with
          telemetryInterval := R
          lastPublishedInterval := R
          retainedStateProcessed := true } := hT
    simp only [setupAutoDiscovery, publishInitialIntervalState, ne_eq, not_true_eq_false,
      and_false, if_false, List.append_nil, Bool.true_eq_false, false_and] at hp
    exact interval_state_not_discovery _ hT2 p hp

/-- C4 on a rebooted device: persisted 45000, retained 45000. -/
theorem retained_then_fallback_keeps_retained_witness :
    (setupAutoDiscovery
        (mqttCallback (sampleState 45000 45000 false (some 45000))
          (sampleState 45000 45000 false (some 45000)).interval_state_topic "45000").1).1 =
      (publishInitialIntervalState
        (mqttCallback (sampleState 45000 45000 false (some 45000))
          (sampleState 45000 45000 false (some 45000)).interval_state_topic "45000").1).1 :=
  (retained_then_fallback_keeps_retained (sampleState 45000 45000 false (some 45000))
    "45000" 45000 (by decide) (by decide)).2.2.2.2.2.1

/-- C5 as stated fails: on a freshly connected device (flag false) the
interval-state text 999 is out of range and the flag is still false after the
callback. -/
theorem malformed_retained_not_consumed :
    (sampleState 60000 60000 false none).retainedStateProcessed = false ∧
      ¬ (1000 ≤ toULong (toInt "999") ∧ toULong (toInt "999") ≤ 600000) ∧
      ¬ ((mqttCallback (sampleState 60000 60000 false none)
        (sampleState 60000 60000 false none).interval_state_topic
        "999").1.retainedStateProcessed = true) := by
  decide

/-- C5 amended: with the flag false, an interval-state payload whose parsed
value is outside the range leaves both intervals unchanged, publishes nothing,
and leaves the flag false. -/
theorem malformed_retained_discarded (s : State) (payload : String)
    (hf : s.retainedStateProcessed = false)
    (h : toULong (toInt payload) < 1000 ∨ 600000 < toULong (toInt payload)) :
    (mqttCallback s s.interval_state_topic payload).1.telemetryInterval = s.telemetryInterval ∧
      (mqttCallback s s.interval_state_topic payload).1.lastPublishedInterval =
        s.lastPublishedInterval ∧
      (mqttCallback s s.interval_state_topic payload).2 = [] ∧
      (mqttCallback s s.interval_state_topic payload).1.retainedStateProcessed = false := by
  have hr : ¬ (1000 ≤ toULong (toInt payload) ∧ toULong (toInt payload) ≤ 600000) := by omega
  have hcb : mqttCallback s s.interval_state_topic payload = (s, []) := by
    simp only [mqttCallback, if_true, hr, if_false]
  rw [hcb]
  exact ⟨rfl, rfl, rfl, hf⟩

/-- C5 amended, at the retained text 999. -/
theorem malformed_retained_discarded_witness :
    (mqttCallback (sampleState 60000 60000 false none)
        (sampleState 60000 60000 false none).interval_state_topic "999").2 = [] ∧
      (mqttCallback (sampleState 60000 60000 false none)
        (sampleState 60000 60000 false none).interval_state_topic
        "999").1.retainedStateProcessed = false :=
  (malformed_retained_discarded (sampleState 60000 60000 false none) "999" rfl
    (by decide)).2.2

/-- C6 as stated fails: with the flag already true and the interval at 60000,
an interval-state message carrying 2000 changes the interval to 2000. -/
theorem retained_observed_again :
    (sampleState 60000 60000 true none).retainedStateProcessed = true ∧
      ¬ ((mqttCallback (sampleState 60000 60000 true none)
        (sampleState 60000 60000 true none).interval_state_topic "2000").1.telemetryInterval =
        (sampleState 60000 60000 true none).telemetryInterval) := by
  decide

/-- C6 amended: with the flag true, an interval-state payload whose parsed
value is outside the range leaves both intervals unchanged, and one whose
parsed value `R` is in range sets both to `R`: the callback does not consult
the flag. -/
theorem retained_flag_not_consulted (s : State) (payload : String)
    (hf : s.retainedStateProcessed = true) :
    ((toULong (toInt payload) < 1000 ∨ 600000 < toULong (toInt payload)) →
        mqttCallback s s.interval_state_topic payload = (s, [])) ∧
      ((1000 ≤ toULong (toInt payload) ∧ toULong (toInt payload) ≤ 600000) →
        mqttCallback s s.interval_state_topic payload =
          ({ s with
              telemetryInterval := toULong (toInt payload)
              lastPublishedInterval := toULong (toInt payload) }, [])) := by
  constructor
  · intro h
    have hr : ¬ (1000 ≤ toULong (toInt payload) ∧ toULong (toInt payload) ≤ 600000) := by omega
    simp only [mqttCallback, if_true, hr, if_false]
  · intro h
    simp only [mqttCallback, if_true, h, and_self, ← hf]

/-- C6 amended, at a second retained message 2000 while the interval is
60000. -/
theorem retained_flag_not_consulted_witness :
    mqttCallback (sampleState 60000 60000 true none)
        (sampleState 60000 60000 true none).interval_state_topic "2000" =
      ({ sampleState 60000 60000 true none with
          telemetryInterval := toULong (toInt "2000")
          lastPublishedInterval := toULong (toInt "2000") }, []) :=
  (retained_flag_not_consulted (sampleState 60000 60000 true none) "2000" rfl).2 (by decide)

/-! ## Start-up and reconnection -/

/-- C7 (the code on a fresh device): with no persisted value, a first
connection that succeeds and no inbound message, `setup` ends with both
intervals at 60000 and the flag false, the fallback check right after the
topics are assigned publishes nothing, and none of the publishes of `setup`
is on the interval-state topic. -/
theorem fresh_device_no_interval_publish :
    (setup (initialState none) "AA:BB:CC:DD:EE:FF" 6000 true).1.telemetryInterval = 60000 ∧
      (setup (initialState none) "AA:BB:CC:DD:EE:FF" 6000 true).1.lastPublishedInterval
        = 60000 ∧
      (setup (initialState none) "AA:BB:CC:DD:EE:FF" 6000 true).1.retainedStateProcessed
        = false ∧
      (setup (initialState none) "AA:BB:CC:DD:EE:FF" 6000 true).1.interval_state_topic
        = "homeassistant/sensor/esp32_AABBCCDDEEFF/interval/state" ∧
      (publishInitialIntervalState
        (setupTopics (setupLoadInterval
          (setupDeviceId (initialState none) "AA:BB:CC:DD:EE:FF")))).2 = [] ∧
      (setup (initialState none) "AA:BB:CC:DD:EE:FF" 6000 true).2.length = 9 ∧
      (setup (initialState none) "AA:BB:CC:DD:EE:FF" 6000 true).2.filter
        (fun p => p.topic = "homeassistant/sensor/esp32_AABBCCDDEEFF/interval/state") = [] := by
  decide

theorem fallback_publishes (s : State) :
    (publishInitialIntervalState s).2 = [] ∨
      (publishInitialIntervalState s).2 =
        [⟨s.interval_state_topic, Payload.text (ofULong s.telemetryInterval), true⟩] := by
  unfold publishInitialIntervalState
  split_ifs
  · exact Or.inr rfl
  · exact Or.inl rfl

theorem fallback_keeps_flag (s : State) :
    (publishInitialIntervalState s).1.retainedStateProcessed = s.retainedStateProcessed := by
  unfold publishInitialIntervalState
  split_ifs <;> rfl

/-- C8: a `reconnectMQTT` call whose connection attempt succeeds issues the
online marker, then one retained publish for each of the three discovery
documents, the online marker again, and at most the fallback publish on the
interval-state topic; under the topics of `setup` that is exactly one publish
on each of the three discovery topics; the call returns with the flag false.
A call that makes no attempt (client connected, or cooldown not elapsed) or
whose attempt fails publishes nothing and leaves the flag unchanged. -/
theorem reconnect_replays_discovery (s : State) (now : Nat)
    (hcool : subULong now s.lastReconnectAttempt > 5000) :
    (∃ fb : List Publish,
        (fb = [] ∨
          fb = [⟨s.interval_state_topic, Payload.text (ofULong s.telemetryInterval), true⟩]) ∧
        (reconnectMQTT s false now true).2 =
          ⟨availabilityTopic s, Payload.text "online", true⟩ ::
            ([⟨s.temperature_config_topic, Payload.json (tempDoc s), true⟩,
              ⟨s.humidity_config_topic, Payload.json (humDoc s), true⟩,
              ⟨intervalConfigTopic s, Payload.json (intervalDoc s), true⟩,
              ⟨availabilityTopic s, Payload.text "online", true⟩] ++ fb)) ∧
      (TopicsAssigned s →
        (reconnectMQTT s false now true).2.filter
            (fun p => p.topic = s.temperature_config_topic) =
          [⟨s.temperature_config_topic, Payload.json (tempDoc s), true⟩] ∧
        (reconnectMQTT s false now true).2.filter
            (fun p => p.topic = s.humidity_config_topic) =
          [⟨s.humidity_config_topic, Payload.json (humDoc s), true⟩] ∧
        (reconnectMQTT s false now true).2.filter
            (fun p => p.topic = intervalConfigTopic s) =
          [⟨intervalConfigTopic s, Payload.json (intervalDoc s), true⟩]) ∧
      (reconnectMQTT s false now true).1.retainedStateProcessed = false ∧
      (∀ (c : Bool) (t : Nat) (ok : Bool),
        (c = true ∨ subULong t s.lastReconnectAttempt ≤ 5000 ∨ ok = false) →
        (reconnectMQTT s c t ok).2 = [] ∧
          (reconnectMQTT s c t ok).1.retainedStateProcessed = s.retainedStateProcessed) := by
  have hg : (false = false ∧ subULong now s.lastReconnectAttempt > 5000) := ⟨rfl, hcool⟩
  have hpub : ∃ fb : List Publish,
      (fb = [] ∨
        fb = [⟨s.interval_state_topic, Payload.text (ofULong s.telemetryInterval), true⟩]) ∧
      (reconnectMQTT s false now true).2 =
        ⟨availabilityTopic s, Payload.text "online", true⟩ :: (discoveryPublishes s ++ fb) := by
    refine ⟨(publishInitialIntervalState
      { s with lastReconnectAttempt := now % 4294967296, retainedStateProcessed := false }).2,
      fallback_publishes _, ?_⟩
    simp only [reconnectMQTT, hg, if_true, setupAutoDiscovery, and_self]
    rfl
  refine ⟨hpub, ?_, ?_, ?_⟩
  · intro hT
    obtain ⟨d1, d2, d3, d4, d5, d6, d7, d8, d9⟩ := discovery_topics_distinct s hT
    obtain ⟨fb, hfb, hrun⟩ := hpub
    rw [hrun]
    refine ⟨?_, ?_, ?_⟩
    · rcases hfb with rfl | rfl <;>
        simp [discoveryPublishes, List.filter_cons, d1, d1.symm, d2.symm, d3.symm, d4.symm]
    · rcases hfb with rfl | rfl <;>
        simp [discoveryPublishes, List.filter_cons, d1, d5.symm, d6.symm, d7.symm]
    · rcases hfb with rfl | rfl <;>
        simp [discoveryPublishes, List.filter_cons, d2, d5, d8.symm, d9.symm]
  · simp only [reconnectMQTT, hg, if_true, setupAutoDiscovery, and_self]
    rw [fallback_keeps_flag]
  · intro c t ok h
    unfold reconnectMQTT
    split_ifs with h1 h2
    · rcases h with h | h | h
      · rw [h] at h1; exact absurd h1.1 (by decide)
      · omega
      · rw [h] at h2; exact absurd h2 (by decide)
    · exact ⟨rfl, rfl⟩
    · exact ⟨rfl, rfl⟩

/-- C8 on a device that lost its session late in a run: the flag was true and
comes back false. -/
theorem reconnect_replays_discovery_witness :
    (reconnectMQTT (sampleState 60000 60000 true none) false 6000 true).2.filter
        (fun p => p.topic = (sampleState 60000 60000 true none).temperature_config_topic) =
        [⟨(sampleState 60000 60000 true none).temperature_config_topic,
          Payload.json (tempDoc (sampleState 60000 60000 true none)), true⟩] ∧
      (reconnectMQTT (sampleState 60000 60000 true none) false 6000
        true).1.retainedStateProcessed = false :=
  ⟨((reconnect_replays_discovery (sampleState 60000 60000 true none) 6000
      (by decide)).2.1 (by decide)).1,
    (reconnect_replays_discovery (sampleState 60000 60000 true none) 6000
      (by decide)).2.2.1⟩

/-! ## Signal quality -/

theorem quality_mid (rssi : Int) (h1 : -100 < rssi) (h2 : rssi < -50) :
    calculateWiFiQuality rssi = 2 * (rssi + 100) := by
  unfold calculateWiFiQuality
  simp only []
  rw [if_neg (by omega), if_neg (by omega)]
  have hden : (-50 : Int) - (-100) = 50 := by decide
  rw [hden, Int.tdiv_eq_ediv (by omega) (by omega)]
  omega

/-- C9: the quality is 0 at or below -100, 100 at or above -50, and
`2 * (rssi + 100)` strictly between, where the division leaves no remainder;
it lies in `[0, 100]` and never decreases when the signal strength grows. -/
theorem wifi_quality_piecewise :
    (∀ rssi : Int, rssi ≤ -100 → calculateWiFiQuality rssi = 0) ∧
      (∀ rssi : Int, -50 ≤ rssi → calculateWiFiQuality rssi = 100) ∧
      (∀ rssi : Int, -100 < rssi → rssi < -50 →
        calculateWiFiQuality rssi = 2 * (rssi + 100) ∧
          Int.tmod ((rssi - (-100)) * 100) (-50 - (-100)) = 0) ∧
      (∀ rssi : Int, 0 ≤ calculateWiFiQuality rssi ∧ calculateWiFiQuality rssi ≤ 100) ∧
      (∀ a b : Int, a ≤ b → calculateWiFiQuality a ≤ calculateWiFiQuality b) := by
  have lo : ∀ rssi : Int, rssi ≤ -100 → calculateWiFiQuality rssi = 0 := by
    intro rssi h
    unfold calculateWiFiQuality
    simp only []
    rw [if_pos h]
  have hi : ∀ rssi : Int, -50 ≤ rssi → calculateWiFiQuality rssi = 100 := by
    intro rssi h
    unfold calculateWiFiQuality
    simp only []
    rw [if_neg (by omega), if_pos (by omega)]
  have val : ∀ rssi : Int,
      (rssi ≤ -100 ∧ calculateWiFiQuality rssi = 0) ∨
      (-50 ≤ rssi ∧ calculateWiFiQuality rssi = 100) ∨
      (-100 < rssi ∧ rssi < -50 ∧ calculateWiFiQuality rssi = 2 * (rssi + 100)) := by
    intro rssi
    by_cases h1 : rssi ≤ -100
    · exact Or.inl ⟨h1, lo rssi h1⟩
    · by_cases h2 : -50 ≤ rssi
      · exact Or.inr (Or.inl ⟨h2, hi rssi h2⟩)
      · exact Or.inr (Or.inr ⟨by omega, by omega, quality_mid rssi (by omega) (by omega)⟩)
  refine ⟨lo, hi, ?_, ?_, ?_⟩
  · intro rssi h1 h2
    refine ⟨quality_mid rssi h1 h2, ?_⟩
    have hden : (-50 : Int) - (-100) = 50 := by decide
    rw [hden, Int.tmod_eq_emod (by omega) (by omega)]
    omega
  · intro rssi
    rcases val rssi with h | h | h <;> omega
  · intro a b hab
    rcases val a with h | h | h <;> rcases val b with h2 | h2 | h2 <;> omega

/-- C9 at -75 dBm and at the pair -75, -60. -/
theorem wifi_quality_piecewise_witness :
    (calculateWiFiQuality (-75) = 2 * (-75 + 100) ∧
        Int.tmod ((-75 - (-100)) * 100) (-50 - (-100)) = 0) ∧
      calculateWiFiQuality (-75) ≤ calculateWiFiQuality (-60) :=
  ⟨wifi_quality_piecewise.2.2.1 (-75) (by decide) (by decide),
    wifi_quality_piecewise.2.2.2.2 (-75) (-60) (by decide)⟩

/-! ## Published and authoritative interval in lockstep -/

theorem mqttCallback_lockstep (s : State) (topic payload : String)
    (h : s.lastPublishedInterval = s.telemetryInterval) :
    (mqttCallback s topic payload).1.lastPublishedInterval =
      (mqttCallback s topic payload).1.telemetryInterval := by
  unfold mqttCallback
  simp only []
  split_ifs with h1 h2 h3 h4 h5
  · rfl
  · exact h
  · rfl
  · simp only [ne_eq, Decidable.not_not] at h5
    exact h5.symm
  · exact h
  · exact h

theorem fallback_of_lockstep (s : State) (h : s.lastPublishedInterval = s.telemetryInterval) :
    publishInitialIntervalState s = (s, []) := by
  unfold publishInitialIntervalState
  rw [if_neg]
  intro hc
  exact hc.2 h.symm

theorem setupAutoDiscovery_of_lockstep (s : State)
    (h : s.lastPublishedInterval = s.telemetryInterval) :
    setupAutoDiscovery s = (s, discoveryPublishes s) := by
  unfold setupAutoDiscovery
  rw [fallback_of_lockstep s h]
  simp

theorem reconnectMQTT_of_lockstep (s : State) (c : Bool) (now : Nat) (ok : Bool)
    (h : s.lastPublishedInterval = s.telemetryInterval) :
    (reconnectMQTT s c now ok).1.lastPublishedInterval =
        (reconnectMQTT s c now ok).1.telemetryInterval ∧
      ((reconnectMQTT s c now ok).2 = [] ∨
        (reconnectMQTT s c now ok).2 =
          ⟨availabilityTopic s, Payload.text "online", true⟩ :: discoveryPublishes s) := by
  unfold reconnectMQTT
  simp only []
  split_ifs with h1 h2
  · have hs2 := setupAutoDiscovery_of_lockstep
      { s with lastReconnectAttempt := now % 4294967296, retainedStateProcessed := false } h
    rw [hs2]
    exact ⟨h, Or.inr rfl⟩
  · exact ⟨h, Or.inl rfl⟩
  · exact ⟨h, Or.inl rfl⟩

theorem step_lockstep (s : State) (e : Event)
    (h : s.lastPublishedInterval = s.telemetryInterval) :
    (step s e).1.lastPublishedInterval = (step s e).1.telemetryInterval := by
  cases e with
  | message topic payload => exact mqttCallback_lockstep s topic payload h
  | reconnect c now ok => exact (reconnectMQTT_of_lockstep s c now ok h).1
  | discovery =>
    show (setupAutoDiscovery s).1.lastPublishedInterval = (setupAutoDiscovery s).1.telemetryInterval
    rw [setupAutoDiscovery_of_lockstep s h]
    exact h

theorem run_lockstep (evs : List Event) :
    ∀ s : State, s.lastPublishedInterval = s.telemetryInterval →
      (run s evs).1.lastPublishedInterval = (run s evs).1.telemetryInterval := by
  induction evs with
  | nil => intro s h; exact h
  | cons e es ih =>
    intro s h
    exact ih (step s e).1 (step_lockstep s e h)

/-- C10: after the NVS load of `setup`, whatever state the globals were in
before it and whatever sequence of inbound messages, `reconnectMQTT` calls and
`setupAutoDiscovery` calls follows, the last published interval equals the
authoritative one; so the guard of the fallback check is false, the check
changes and publishes nothing, `setupAutoDiscovery` issues its four
unconditional publishes only, and `reconnectMQTT` issues nothing or the online
marker followed by those four. -/
theorem published_lockstep (s0 : State) (evs : List Event) :
    (run (setupLoadInterval s0) evs).1.lastPublishedInterval =
        (run (setupLoadInterval s0) evs).1.telemetryInterval ∧
      ¬ ((run (setupLoadInterval s0) evs).1.retainedStateProcessed = false ∧
        (run (setupLoadInterval s0) evs).1.telemetryInterval ≠
          (run (setupLoadInterval s0) evs).1.lastPublishedInterval) ∧
      publishInitialIntervalState (run (setupLoadInterval s0) evs).1 =
        ((run (setupLoadInterval s0) evs).1, []) ∧
      setupAutoDiscovery (run (setupLoadInterval s0) evs).1 =
        ((run (setupLoadInterval s0) evs).1,
          discoveryPublishes (run (setupLoadInterval s0) evs).1) ∧
      (∀ (c : Bool) (now : Nat) (ok : Bool),
        (reconnectMQTT (run (setupLoadInterval s0) evs).1 c now ok).2 = [] ∨
        (reconnectMQTT (run (setupLoadInterval s0) evs).1 c now ok).2 =
          ⟨availabilityTopic (run (setupLoadInterval s0) evs).1, Payload.text "online", true⟩ ::
            discoveryPublishes (run (setupLoadInterval s0) evs).1) := by
  have h : (run (setupLoadInterval s0) evs).1.lastPublishedInterval =
      (run (setupLoadInterval s0) evs).1.telemetryInterval :=
    run_lockstep evs (setupLoadInterval s0) rfl
  refine ⟨h, ?_, fallback_of_lockstep _ h, setupAutoDiscovery_of_lockstep _ h, ?_⟩
  · intro hc
    exact hc.2 h.symm
  · intro c now ok
    exact (reconnectMQTT_of_lockstep _ c now ok h).2

end Firmware
